import Mathlib

/-
Verification of the Flask serving wrapper in `app.py` of the
Credit-Card-Fraud-Detection repository.

The program is a thin HTTP dispatcher around two opaque serialized
artifacts (a fitted preprocessor and a trained classifier).  We embed it
shallowly:

* JSON values (`JValue`) model the result of `request.get_json`.
* Python exceptions relevant to this code are the constructors of
  `PyError`; fallible Python expressions become `Except PyError`.
* The opaque artifacts are records of functions (`Preprocessor.transform`,
  `Model.predict`, `Model.predict_proba`) that may raise.
* The module-level globals `model`, `preprocessor`, `RESOURCES_LOADED`
  form `ServerState`; handlers take and return the state explicitly (the
  source declares `global` for them but never assigns inside a handler).
* Calls into the opaque artifacts are logged in a trace (`List ExtCall`)
  so that "the preprocessor was handed exactly this record" and
  "transform/predict were never invoked" are statable.
* Python `float` strings are modelled by a decimal parser (`parseFloat`);
  floats themselves are modelled as rationals, which is faithful for the
  control-flow properties verified here (no float arithmetic occurs in
  the wrapper).
-/

namespace App

/-- JSON values as produced by `request.get_json(force=True)`. -/
inductive JValue : Type where
  | null : JValue
  | bool : Bool → JValue
  | num : ℚ → JValue
  | str : String → JValue
  | arr : List JValue → JValue
  | obj : List (String × JValue) → JValue

/-- The Python exceptions this wrapper can encounter. `otherError` stands
for any exception raised inside the opaque artifacts. -/
inductive PyError : Type where
  | valueError : PyError
  | typeError : PyError
  | keyError : String → PyError
  | indexError : PyError
  | otherError : String → PyError
deriving DecidableEq

/-- Rendering of an exception, abstracting the Python `f-string`
interpolation used in the blanket handler of `predict` (app.py:286). -/
def PyError.msg : PyError → String
  | .valueError => "ValueError"
  | .typeError => "TypeError"
  | .keyError k => "KeyError: " ++ k
  | .indexError => "IndexError"
  | .otherError s => s

instance {ε α : Type} [DecidableEq ε] [DecidableEq α] :
    DecidableEq (Except ε α) := fun a b =>
  match a, b with
  | Except.ok x, Except.ok y =>
    if h : x = y then Decidable.isTrue (congrArg Except.ok h)
    else Decidable.isFalse (fun hc => h (Except.ok.inj hc))
  | Except.error x, Except.error y =>
    if h : x = y then Decidable.isTrue (congrArg Except.error h)
    else Decidable.isFalse (fun hc => h (Except.error.inj hc))
  | Except.ok _, Except.error _ => Decidable.isFalse (fun hc => Except.noConfusion hc)
  | Except.error _, Except.ok _ => Decidable.isFalse (fun hc => Except.noConfusion hc)

/-- Python dict subscription `data[k]`: `KeyError` on a missing key of a
dict, `TypeError` when the subscripted value is not a dict. -/
def JValue.getKey : JValue → String → Except PyError JValue
  | .obj kvs, k =>
    match kvs.lookup k with
    | some v => Except.ok v
    | none => Except.error (PyError.keyError k)
  | _, _ => Except.error PyError.typeError

/-- Value of the decimal digits of a string of digit characters. -/
def digitsVal (ds : List Char) : ℕ :=
  ds.foldl (fun n c => 10 * n + (c.toNat - 48)) 0

/-- Whitespace characters stripped by Python `float` around a numeric
string. -/
def isSpaceChar (c : Char) : Bool :=
  c == ' ' || c == '\t' || c == '\n' || c == '\r'

/-- Strip leading and trailing whitespace from a character list. -/
def trimChars (cs : List Char) : List Char :=
  ((cs.dropWhile isSpaceChar).reverse.dropWhile isSpaceChar).reverse

/-- Decimal-literal fragment of Python `float(str)`: optional sign,
digits with an optional single decimal point, surrounding whitespace
stripped; `none` models `ValueError`. -/
def parseFloat (s : String) : Option ℚ :=
  let t := trimChars s.data
  let signed : ℚ × List Char :=
    match t with
    | '-' :: rest => (-1, rest)
    | '+' :: rest => (1, rest)
    | _ => (1, t)
  let sign := signed.1
  let u := signed.2
  let intPart := u.takeWhile Char.isDigit
  let rest := u.dropWhile Char.isDigit
  match rest with
  | [] =>
    if intPart.isEmpty then none
    else some (sign * (digitsVal intPart : ℚ))
  | '.' :: frac =>
    if frac.all Char.isDigit && !(intPart.isEmpty && frac.isEmpty) then
      some (sign * ((digitsVal intPart : ℚ) +
        (digitsVal frac : ℚ) / ((10 : ℚ) ^ frac.length)))
    else none
  | _ => none

/-- Python `float(x)` on a JSON value: numbers and booleans coerce,
numeric strings parse (`ValueError` otherwise), and `None`, lists and
objects raise `TypeError`. -/
def pyFloat : JValue → Except PyError ℚ
  | .num q => Except.ok q
  | .bool b => Except.ok (if b then 1 else 0)
  | .str s =>
    match parseFloat s with
    | some q => Except.ok q
    | none => Except.error PyError.valueError
  | _ => Except.error PyError.typeError

/-- Indexing `xs[i]` on an array-like value: `IndexError` out of range. -/
def pyIndex {α : Type} (xs : List α) (i : ℕ) : Except PyError α :=
  match xs.get? i with
  | some v => Except.ok v
  | none => Except.error PyError.indexError

/-- A one-row tabular record: ordered column-name/value pairs, as built
by `pd.DataFrame([{...}])` from a single dict (app.py:263-270). -/
abbrev Row := List (String × JValue)

/-- The numeric matrix produced by the fitted preprocessor. -/
abbrev Matrix := List (List ℚ)

/-- The opaque fitted `ColumnTransformer`: its `transform` may raise
(e.g. on unseen categories). -/
structure Preprocessor : Type where
  transform : Row → Except PyError Matrix

/-- The opaque trained classifier pipeline: `predict` returns class
labels, `predict_proba` per-class probability rows; both may raise. -/
structure Model : Type where
  predict : Matrix → Except PyError (List ℤ)
  predict_proba : Matrix → Except PyError (List (List ℚ))

/-- The module-level globals of app.py (lines 16-18). -/
structure ServerState : Type where
  model : Option Model
  preprocessor : Option Preprocessor
  RESOURCES_LOADED : Bool

/-- Initial global state: `model = None`, `preprocessor = None`,
`RESOURCES_LOADED = False` (app.py:16-18). -/
def initialState : ServerState :=
  { model := none, preprocessor := none, RESOURCES_LOADED := false }

/-- `load_resources` (app.py:20-46): the two joblib loads in order; a
failure of either leaves `RESOURCES_LOADED = False`, and assignments
made before the failing load persist. -/
def load_resources (loadPreprocessor : Except PyError Preprocessor)
    (loadModel : Except PyError Model) (st : ServerState) : ServerState :=
  match loadPreprocessor with
  | Except.error _ => { st with RESOURCES_LOADED := false }
  | Except.ok pre =>
    match loadModel with
    | Except.error _ =>
      { st with preprocessor := some pre, RESOURCES_LOADED := false }
    | Except.ok mdl =>
      { st with preprocessor := some pre, model := some mdl,
                RESOURCES_LOADED := true }

/-- An HTTP JSON reply: status code and JSON-object body. -/
structure Response : Type where
  status : ℕ
  body : List (String × JValue)

/-- The null-resource 500 reply (app.py:249). -/
def resourcesErrorResponse : Response :=
  { status := 500,
    body := [("error", JValue.str "Model resources not fully loaded on server.")] }

/-- The type-coercion 400 reply (app.py:258). -/
def invalidAmountResponse : Response :=
  { status := 400,
    body := [("error", JValue.str "Invalid format for Transaction Amount. Must be a number.")] }

/-- The blanket-exception 500 reply (app.py:286). -/
def predictionErrorResponse (e : PyError) : Response :=
  { status := 500,
    body := [("error", JValue.str ("An error occurred during prediction: " ++ e.msg))] }

/-- The success reply (app.py:279-282). -/
def successResponse (p : ℤ) (q : ℚ) : Response :=
  { status := 200,
    body := [("prediction", JValue.num p), ("probability", JValue.num q)] }

/-- The fixed-schema one-row record of app.py:263-270, fields in source
order, the already-converted amount in the first field. -/
def input_data_row (amount : ℚ)
    (state card_type bank category location : JValue) : Row :=
  [("Transaction Amount (INR)", JValue.num amount),
   ("State", state),
   ("Card Type", card_type),
   ("Bank", bank),
   ("Transaction Category", category),
   ("Merchant Location", location)]

/-- Outcome of parsing the request into a record: either the inner
`except ValueError` fired (early 400 return), or the record was built. -/
inductive ParseOutcome : Type where
  | badAmount : ParseOutcome
  | record : Row → ParseOutcome

/-- The parse-coerce-build part of the `try` block (app.py:252-270):
convert `data["amount"]` with `float` under the inner
`except ValueError`, then read the five categorical keys in dict-literal
order; any other exception propagates. -/
def buildRecord (data : JValue) : Except PyError ParseOutcome :=
  match data.getKey "amount" with
  | Except.error e => Except.error e
  | Except.ok rawAmount =>
    match pyFloat rawAmount with
    | Except.error PyError.valueError => Except.ok ParseOutcome.badAmount
    | Except.error e => Except.error e
    | Except.ok amount =>
      match data.getKey "state" with
      | Except.error e => Except.error e
      | Except.ok state =>
        match data.getKey "card_type" with
        | Except.error e => Except.error e
        | Except.ok card_type =>
          match data.getKey "bank" with
          | Except.error e => Except.error e
          | Except.ok bank =>
            match data.getKey "category" with
            | Except.error e => Except.error e
            | Except.ok category =>
              match data.getKey "location" with
              | Except.error e => Except.error e
              | Except.ok location =>
                Except.ok (ParseOutcome.record
                  (input_data_row amount state card_type bank category location))

/-- A logged call into one of the opaque artifacts, with its argument. -/
inductive ExtCall : Type where
  | transform : Row → ExtCall
  | predict : Matrix → ExtCall
  | predict_proba : Matrix → ExtCall

/-- The transform-predict part of the `try` block (app.py:272-282):
`preprocessor.transform`, `model.predict(...)[0]`,
`model.predict_proba(...)[0, 1]`, in source order, each call logged. -/
def runModel (pre : Preprocessor) (mdl : Model) (row : Row) :
    Except PyError Response × List ExtCall :=
  match pre.transform row with
  | Except.error e => (Except.error e, [ExtCall.transform row])
  | Except.ok X =>
    match mdl.predict X with
    | Except.error e => (Except.error e, [ExtCall.transform row, ExtCall.predict X])
    | Except.ok preds =>
      match pyIndex preds 0 with
      | Except.error e => (Except.error e, [ExtCall.transform row, ExtCall.predict X])
      | Except.ok p =>
        match mdl.predict_proba X with
        | Except.error e =>
          (Except.error e,
           [ExtCall.transform row, ExtCall.predict X, ExtCall.predict_proba X])
        | Except.ok probs =>
          match pyIndex probs 0 with
          | Except.error e =>
            (Except.error e,
             [ExtCall.transform row, ExtCall.predict X, ExtCall.predict_proba X])
          | Except.ok probRow =>
            match pyIndex probRow 1 with
            | Except.error e =>
              (Except.error e,
               [ExtCall.transform row, ExtCall.predict X, ExtCall.predict_proba X])
            | Except.ok prob =>
              (Except.ok (successResponse p prob),
               [ExtCall.transform row, ExtCall.predict X, ExtCall.predict_proba X])

/-- The whole `try` block (app.py:251-282).  Its input is the outcome of
`request.get_json(force=True)`, whose parse failure raises (a
`BadRequest`, caught by the blanket handler).  An `Except.ok` result is
an early or final `return`; an `Except.error` reaches the blanket
`except Exception`. -/
def tryBody (pre : Preprocessor) (mdl : Model)
    (getJson : Except PyError JValue) : Except PyError Response × List ExtCall :=
  match getJson with
  | Except.error e => (Except.error e, [])
  | Except.ok data =>
    match buildRecord data with
    | Except.error e => (Except.error e, [])
    | Except.ok ParseOutcome.badAmount => (Except.ok invalidAmountResponse, [])
    | Except.ok (ParseOutcome.record row) => runModel pre mdl row

/-- The `/predict` handler (app.py:241-286): null-resource guard, then
the `try` block with the blanket `except Exception` around it.  Returns
the HTTP reply together with the trace of artifact calls. -/
def predict (st : ServerState) (getJson : Except PyError JValue) :
    Response × List ExtCall :=
  if !st.RESOURCES_LOADED || st.model.isNone || st.preprocessor.isNone then
    (resourcesErrorResponse, [])
  else
    match st.model, st.preprocessor with
    | some mdl, some pre =>
      ((match (tryBody pre mdl getJson).1 with
        | Except.ok r => r
        | Except.error e => predictionErrorResponse e),
       (tryBody pre mdl getJson).2)
    | _, _ => (resourcesErrorResponse, [])

/-- The `/predict` handler together with the globals it leaves behind:
the source declares `global model`, `global preprocessor`,
`global RESOURCES_LOADED` (app.py:244-246) but assigns none of them, so
the state after the handler is the state before it. -/
def predict_handler (st : ServerState) (getJson : Except PyError JValue) :
    (Response × List ExtCall) × ServerState :=
  (predict st getJson, st)

/-- The reply of the `/` route: the error page or the static dashboard
page (its HTML is opaque to the properties verified here). -/
inductive HomeResponse : Type where
  | errorPage : String → HomeResponse
  | dashboard : HomeResponse

/-- The `/` handler (app.py:52-60): error page when `RESOURCES_LOADED`
is false, otherwise the static dashboard; globals are untouched. -/
def home (st : ServerState) : HomeResponse × ServerState :=
  if st.RESOURCES_LOADED then (HomeResponse.dashboard, st)
  else
    (HomeResponse.errorPage
      "Server Error: Model failed to load. Please check logs.", st)

/-- A sample concrete preprocessor used in witnesses. -/
def demoPre : Preprocessor := ⟨fun _ => Except.ok [[1, 0]]⟩

/-- A sample concrete classifier used in witnesses. -/
def demoModel : Model :=
  ⟨fun _ => Except.ok [1],
   fun _ => Except.ok [[(3 : ℚ)/100, (97 : ℚ)/100]]⟩

/-- A sample well-formed request body used in witnesses. -/
def demoData : JValue :=
  JValue.obj
    [("amount", JValue.num 2500),
     ("state", JValue.str "Telangana"),
     ("card_type", JValue.str "Rupay"),
     ("bank", JValue.str "ICICI Bank"),
     ("category", JValue.str "Transportation"),
     ("location", JValue.str "Bangalore")]

theorem getKey_obj (kvs : List (String × JValue)) (k : String) :
    JValue.getKey (JValue.obj kvs) k =
      (match kvs.lookup k with
       | some v => Except.ok v
       | none => Except.error (PyError.keyError k)) := rfl

theorem predict_loaded (mdl : Model) (pre : Preprocessor)
    (g : Except PyError JValue) :
    predict ⟨some mdl, some pre, true⟩ g =
      ((match (tryBody pre mdl g).1 with
        | Except.ok r => r
        | Except.error e => predictionErrorResponse e),
       (tryBody pre mdl g).2) := rfl

theorem runModel_fst_shape (pre : Preprocessor) (mdl : Model) (row : Row) :
    (∃ p prob, (runModel pre mdl row).1 = Except.ok (successResponse p prob)) ∨
    (∃ e, (runModel pre mdl row).1 = Except.error e) := by
  unfold runModel
  repeat' split
  all_goals first
  | exact Or.inl ⟨_, _, rfl⟩
  | exact Or.inr ⟨_, rfl⟩

theorem runModel_trace_head (pre : Preprocessor) (mdl : Model) (row : Row) :
    (runModel pre mdl row).2.head? = some (ExtCall.transform row) := by
  unfold runModel
  repeat' split
  all_goals rfl

theorem buildRecord_shape (data : JValue) :
    buildRecord data = Except.ok ParseOutcome.badAmount ∨
    (∃ row, buildRecord data = Except.ok (ParseOutcome.record row)) ∨
    (∃ e, buildRecord data = Except.error e) := by
  cases h : buildRecord data with
  | error e => exact Or.inr (Or.inr ⟨e, rfl⟩)
  | ok out =>
    cases out with
    | badAmount => exact Or.inl rfl
    | record row => exact Or.inr (Or.inl ⟨row, rfl⟩)

theorem buildRecord_all_ok (data rawAmount s c b k l : JValue) (q : ℚ)
    (ham : data.getKey "amount" = Except.ok rawAmount)
    (hq : pyFloat rawAmount = Except.ok q)
    (hs : data.getKey "state" = Except.ok s)
    (hc : data.getKey "card_type" = Except.ok c)
    (hb : data.getKey "bank" = Except.ok b)
    (hk : data.getKey "category" = Except.ok k)
    (hl : data.getKey "location" = Except.ok l) :
    buildRecord data =
      Except.ok (ParseOutcome.record (input_data_row q s c b k l)) := by
  simp only [buildRecord, ham, hq, hs, hc, hb, hk, hl]

theorem buildRecord_amount_raises (data rawAmount : JValue) (pe : PyError)
    (ham : data.getKey "amount" = Except.ok rawAmount)
    (hq : pyFloat rawAmount = Except.error pe)
    (hne : pe ≠ PyError.valueError) :
    buildRecord data = Except.error pe := by
  cases pe with
  | valueError => exact absurd rfl hne
  | typeError => simp only [buildRecord, ham, hq]
  | keyError k => simp only [buildRecord, ham, hq]
  | indexError => simp only [buildRecord, ham, hq]
  | otherError s => simp only [buildRecord, ham, hq]

theorem buildRecord_bad_amount (data rawAmount : JValue)
    (ham : data.getKey "amount" = Except.ok rawAmount)
    (hq : pyFloat rawAmount = Except.error PyError.valueError) :
    buildRecord data = Except.ok ParseOutcome.badAmount := by
  simp only [buildRecord, ham, hq]

theorem buildRecord_ok_amount_shape (data rawAmount : JValue) (q : ℚ)
    (ham : data.getKey "amount" = Except.ok rawAmount)
    (hq : pyFloat rawAmount = Except.ok q) :
    (∃ e, buildRecord data = Except.error e) ∨
    (∃ row, buildRecord data = Except.ok (ParseOutcome.record row)) := by
  simp only [buildRecord, ham, hq]
  repeat' split
  all_goals first
  | exact Or.inl ⟨_, rfl⟩
  | exact Or.inr ⟨_, rfl⟩

theorem buildRecord_badAmount_elim (data : JValue)
    (h : buildRecord data = Except.ok ParseOutcome.badAmount) :
    ∃ raw, data.getKey "amount" = Except.ok raw ∧
      pyFloat raw = Except.error PyError.valueError := by
  unfold buildRecord at h
  split at h
  · simp at h
  next rawAmount ham =>
    split at h
    next hval => exact ⟨rawAmount, ham, hval⟩
    · simp at h
    next q hq =>
      repeat' split at h
      all_goals simp at h

theorem predict_buildRecord_error (mdl : Model) (pre : Preprocessor)
    (data : JValue) (e : PyError) (h : buildRecord data = Except.error e) :
    predict ⟨some mdl, some pre, true⟩ (Except.ok data) =
      (predictionErrorResponse e, []) := by
  simp [predict_loaded, tryBody, h]

theorem predict_buildRecord_badAmount (mdl : Model) (pre : Preprocessor)
    (data : JValue) (h : buildRecord data = Except.ok ParseOutcome.badAmount) :
    predict ⟨some mdl, some pre, true⟩ (Except.ok data) =
      (invalidAmountResponse, []) := by
  simp [predict_loaded, tryBody, h]

theorem predict_fst_record (mdl : Model) (pre : Preprocessor)
    (data : JValue) (row : Row)
    (h : buildRecord data = Except.ok (ParseOutcome.record row)) :
    (predict ⟨some mdl, some pre, true⟩ (Except.ok data)).1 =
      (match (runModel pre mdl row).1 with
       | Except.ok r => r
       | Except.error e => predictionErrorResponse e) := by
  simp [predict_loaded, tryBody, h]

theorem predict_snd_record (mdl : Model) (pre : Preprocessor)
    (data : JValue) (row : Row)
    (h : buildRecord data = Except.ok (ParseOutcome.record row)) :
    (predict ⟨some mdl, some pre, true⟩ (Except.ok data)).2 =
      (runModel pre mdl row).2 := by
  simp [predict_loaded, tryBody, h]

theorem runModel_success (pre : Preprocessor) (mdl : Model) (row : Row)
    (X : Matrix) (preds : List ℤ) (p : ℤ)
    (probs : List (List ℚ)) (probRow : List ℚ) (prob : ℚ)
    (ht : pre.transform row = Except.ok X)
    (hp : mdl.predict X = Except.ok preds)
    (hp0 : preds.get? 0 = some p)
    (hpr : mdl.predict_proba X = Except.ok probs)
    (hpr0 : probs.get? 0 = some probRow)
    (hpr1 : probRow.get? 1 = some prob) :
    runModel pre mdl row =
      (Except.ok (successResponse p prob),
       [ExtCall.transform row, ExtCall.predict X, ExtCall.predict_proba X]) := by
  simp only [runModel, pyIndex, ht, hp, hp0, hpr, hpr0, hpr1]

theorem getKey_obj_ok (kvs : List (String × JValue)) (k : String) (v : JValue)
    (h : JValue.getKey (JValue.obj kvs) k = Except.ok v) :
    List.lookup k kvs = some v := by
  rw [getKey_obj] at h
  cases hl : List.lookup k kvs with
  | none => rw [hl] at h; cases h
  | some w => rw [hl] at h; injection h with h; rw [h]

theorem predict_guard_fails (om : Option Model) (op : Option Preprocessor)
    (rl : Bool) (g : Except PyError JValue)
    (h : rl = false ∨ om = none ∨ op = none) :
    predict ⟨om, op, rl⟩ g = (resourcesErrorResponse, []) := by
  rcases h with h | h | h
  · subst h; rfl
  · subst h; cases rl <;> rfl
  · subst h; cases rl <;> cases om <;> rfl

theorem successResponse_ne_invalid (p : ℤ) (q : ℚ) :
    successResponse p q ≠ invalidAmountResponse := by
  intro h
  have hst := congrArg Response.status h
  simp [successResponse, invalidAmountResponse] at hst

theorem blanketResponse_ne_invalid (e : PyError) :
    predictionErrorResponse e ≠ invalidAmountResponse := by
  intro h
  have hst := congrArg Response.status h
  simp [predictionErrorResponse, invalidAmountResponse] at hst

theorem resourcesResponse_ne_invalid :
    resourcesErrorResponse ≠ invalidAmountResponse := by
  intro h
  have hst := congrArg Response.status h
  simp [resourcesErrorResponse, invalidAmountResponse] at hst

/-- C1: for every POST /predict request where the resources are loaded,
`float(data["amount"])` succeeds, and the preprocessor and model calls
raise no exception (and return well-indexed arrays), the handler returns
the 200 JSON body whose label is the prediction of the classifier on the
transformed single-row record and whose probability is the class-1
probability of the classifier on that same transformed record. -/
theorem C1_success_response (mdl : Model) (pre : Preprocessor)
    (data rawAmount s c b k l : JValue) (q : ℚ)
    (X : Matrix) (preds : List ℤ) (p : ℤ)
    (probs : List (List ℚ)) (probRow : List ℚ) (prob : ℚ)
    (ham : data.getKey "amount" = Except.ok rawAmount)
    (hq : pyFloat rawAmount = Except.ok q)
    (hs : data.getKey "state" = Except.ok s)
    (hc : data.getKey "card_type" = Except.ok c)
    (hb : data.getKey "bank" = Except.ok b)
    (hk : data.getKey "category" = Except.ok k)
    (hl : data.getKey "location" = Except.ok l)
    (ht : pre.transform (input_data_row q s c b k l) = Except.ok X)
    (hp : mdl.predict X = Except.ok preds)
    (hp0 : preds.get? 0 = some p)
    (hpr : mdl.predict_proba X = Except.ok probs)
    (hpr0 : probs.get? 0 = some probRow)
    (hpr1 : probRow.get? 1 = some prob) :
    (predict ⟨some mdl, some pre, true⟩ (Except.ok data)).1 =
      successResponse p prob := by
  rw [predict_fst_record mdl pre data (input_data_row q s c b k l)
    (buildRecord_all_ok data rawAmount s c b k l q ham hq hs hc hb hk hl)]
  rw [runModel_success pre mdl (input_data_row q s c b k l)
    X preds p probs probRow prob ht hp hp0 hpr hpr0 hpr1]

/-- Witness for C1 at a concrete request and concrete artifacts. -/
theorem C1_success_response_witness :
    (predict ⟨some demoModel, some demoPre, true⟩ (Except.ok demoData)).1 =
      successResponse 1 ((97 : ℚ)/100) :=
  C1_success_response demoModel demoPre demoData
    (JValue.num 2500) (JValue.str "Telangana") (JValue.str "Rupay")
    (JValue.str "ICICI Bank") (JValue.str "Transportation")
    (JValue.str "Bangalore") 2500 [[1, 0]] [1] 1
    [[(3 : ℚ)/100, (97 : ℚ)/100]] [(3 : ℚ)/100, (97 : ℚ)/100] ((97 : ℚ)/100)
    rfl rfl rfl rfl rfl rfl rfl rfl rfl rfl rfl rfl rfl

/-- C2: for every /predict request that passes both guards, the record
handed to the preprocessor is a single-row table with exactly the six
fields Transaction Amount (INR), State, Card Type, Bank, Transaction
Category, Merchant Location, in that fixed order, populated from the
request keys amount, state, card_type, bank, category, location. -/
theorem C2_record_schema (mdl : Model) (pre : Preprocessor)
    (data rawAmount s c b k l : JValue) (q : ℚ)
    (ham : data.getKey "amount" = Except.ok rawAmount)
    (hq : pyFloat rawAmount = Except.ok q)
    (hs : data.getKey "state" = Except.ok s)
    (hc : data.getKey "card_type" = Except.ok c)
    (hb : data.getKey "bank" = Except.ok b)
    (hk : data.getKey "category" = Except.ok k)
    (hl : data.getKey "location" = Except.ok l) :
    (predict ⟨some mdl, some pre, true⟩ (Except.ok data)).2.head? =
      some (ExtCall.transform
        [("Transaction Amount (INR)", JValue.num q),
         ("State", s),
         ("Card Type", c),
         ("Bank", b),
         ("Transaction Category", k),
         ("Merchant Location", l)]) := by
  rw [predict_snd_record mdl pre data (input_data_row q s c b k l)
    (buildRecord_all_ok data rawAmount s c b k l q ham hq hs hc hb hk hl)]
  rw [runModel_trace_head]
  rfl

/-- Witness for C2 at a concrete request. -/
theorem C2_record_schema_witness :
    (predict ⟨some demoModel, some demoPre, true⟩ (Except.ok demoData)).2.head? =
      some (ExtCall.transform
        [("Transaction Amount (INR)", JValue.num 2500),
         ("State", JValue.str "Telangana"),
         ("Card Type", JValue.str "Rupay"),
         ("Bank", JValue.str "ICICI Bank"),
         ("Transaction Category", JValue.str "Transportation"),
         ("Merchant Location", JValue.str "Bangalore")]) :=
  C2_record_schema demoModel demoPre demoData
    (JValue.num 2500) (JValue.str "Telangana") (JValue.str "Rupay")
    (JValue.str "ICICI Bank") (JValue.str "Transportation")
    (JValue.str "Bangalore") 2500
    rfl rfl rfl rfl rfl rfl rfl

/-- C3: whenever RESOURCES_LOADED is false or model is None or
preprocessor is None, /predict returns HTTP 500 with the
resources-not-loaded error body and invokes neither transform nor
predict nor predict_proba (the external-call trace is empty). -/
theorem C3_resource_guard (st : ServerState) (g : Except PyError JValue)
    (h : st.RESOURCES_LOADED = false ∨ st.model = none ∨ st.preprocessor = none) :
    predict st g =
      ({ status := 500,
         body := [("error",
           JValue.str "Model resources not fully loaded on server.")] }, []) := by
  rcases st with ⟨om, op, rl⟩
  exact predict_guard_fails om op rl g (by simpa using h)

/-- Witness for C3 at the initial (nothing loaded) state. -/
theorem C3_resource_guard_witness :
    predict initialState (Except.ok JValue.null) =
      ({ status := 500,
         body := [("error",
           JValue.str "Model resources not fully loaded on server.")] }, []) :=
  C3_resource_guard initialState (Except.ok JValue.null) (Or.inl rfl)

/-- C9: when `data["amount"]` is a value on which float raises TypeError
rather than ValueError (e.g. JSON null, a list, or an object), the
coercion guard does not catch it and /predict returns the blanket HTTP
500 response, not the 400 invalid-amount response. -/
theorem C9_typeError_blanket (mdl : Model) (pre : Preprocessor)
    (data rawAmount : JValue)
    (ham : data.getKey "amount" = Except.ok rawAmount)
    (hq : pyFloat rawAmount = Except.error PyError.typeError) :
    (predict ⟨some mdl, some pre, true⟩ (Except.ok data)).1 =
      predictionErrorResponse PyError.typeError ∧
    (predict ⟨some mdl, some pre, true⟩ (Except.ok data)).1.status = 500 ∧
    (predict ⟨some mdl, some pre, true⟩ (Except.ok data)).1 ≠
      invalidAmountResponse := by
  have hbe := buildRecord_amount_raises data rawAmount PyError.typeError ham hq
    (by simp)
  have hp := predict_buildRecord_error mdl pre data PyError.typeError hbe
  refine ⟨?_, ?_, ?_⟩ <;> rw [hp]
  · rfl
  · exact blanketResponse_ne_invalid PyError.typeError

/-- Witness for C9: a JSON null amount reaches the blanket handler. -/
theorem C9_typeError_blanket_witness :
    (predict ⟨some demoModel, some demoPre, true⟩
        (Except.ok (JValue.obj [("amount", JValue.null)]))).1 =
      predictionErrorResponse PyError.typeError ∧
    (predict ⟨some demoModel, some demoPre, true⟩
        (Except.ok (JValue.obj [("amount", JValue.null)]))).1.status = 500 ∧
    (predict ⟨some demoModel, some demoPre, true⟩
        (Except.ok (JValue.obj [("amount", JValue.null)]))).1 ≠
      invalidAmountResponse :=
  C9_typeError_blanket demoModel demoPre
    (JValue.obj [("amount", JValue.null)]) JValue.null rfl rfl

/-- C4: with resources loaded, /predict returns the 400
invalid-amount response exactly when `float(data["amount"])` raises
ValueError; and when the conversion succeeds, the converted float value
(not the original) is what is placed in the Transaction Amount (INR)
field of the record handed to the preprocessor. -/
theorem C4_amount_value_guard (mdl : Model) (pre : Preprocessor)
    (data rawAmount : JValue)
    (ham : data.getKey "amount" = Except.ok rawAmount) :
    ((predict ⟨some mdl, some pre, true⟩ (Except.ok data)).1 =
        invalidAmountResponse ↔
      pyFloat rawAmount = Except.error PyError.valueError) ∧
    (∀ (q : ℚ) (s c b k l : JValue), pyFloat rawAmount = Except.ok q →
      data.getKey "state" = Except.ok s →
      data.getKey "card_type" = Except.ok c →
      data.getKey "bank" = Except.ok b →
      data.getKey "category" = Except.ok k →
      data.getKey "location" = Except.ok l →
      ∃ rest, (predict ⟨some mdl, some pre, true⟩ (Except.ok data)).2.head? =
        some (ExtCall.transform
          (("Transaction Amount (INR)", JValue.num q) :: rest))) := by
  constructor
  · constructor
    · intro h
      cases hf : pyFloat rawAmount with
      | ok q =>
        exfalso
        rcases buildRecord_ok_amount_shape data rawAmount q ham hf with
          ⟨e, hbe⟩ | ⟨row, hbr⟩
        · rw [predict_buildRecord_error mdl pre data e hbe] at h
          exact blanketResponse_ne_invalid e h
        · rw [predict_fst_record mdl pre data row hbr] at h
          rcases runModel_fst_shape pre mdl row with ⟨p, prob, hr⟩ | ⟨e, hr⟩
          · rw [hr] at h
            exact successResponse_ne_invalid p prob h
          · rw [hr] at h
            exact blanketResponse_ne_invalid e h
      | error pe =>
        by_cases hpe : pe = PyError.valueError
        · rw [hpe]
        · exfalso
          have hbe := buildRecord_amount_raises data rawAmount pe ham hf hpe
          rw [predict_buildRecord_error mdl pre data pe hbe] at h
          exact blanketResponse_ne_invalid pe h
    · intro hf
      rw [predict_buildRecord_badAmount mdl pre data
        (buildRecord_bad_amount data rawAmount ham hf)]
  · intro q s c b k l hf hs hc hb hk hl
    refine ⟨[("State", s), ("Card Type", c), ("Bank", b),
      ("Transaction Category", k), ("Merchant Location", l)], ?_⟩
    rw [predict_snd_record mdl pre data (input_data_row q s c b k l)
      (buildRecord_all_ok data rawAmount s c b k l q ham hf hs hc hb hk hl)]
    rw [runModel_trace_head]
    rfl

/-- Witness for C4 at a concrete request whose amount is the
non-numeric string "abc". -/
theorem C4_amount_value_guard_witness :
    ((predict ⟨some demoModel, some demoPre, true⟩
        (Except.ok (JValue.obj [("amount", JValue.str "abc")]))).1 =
        invalidAmountResponse ↔
      pyFloat (JValue.str "abc") = Except.error PyError.valueError) ∧
    (∀ (q : ℚ) (s c b k l : JValue),
      pyFloat (JValue.str "abc") = Except.ok q →
      (JValue.obj [("amount", JValue.str "abc")]).getKey "state" = Except.ok s →
      (JValue.obj [("amount", JValue.str "abc")]).getKey "card_type" = Except.ok c →
      (JValue.obj [("amount", JValue.str "abc")]).getKey "bank" = Except.ok b →
      (JValue.obj [("amount", JValue.str "abc")]).getKey "category" = Except.ok k →
      (JValue.obj [("amount", JValue.str "abc")]).getKey "location" = Except.ok l →
      ∃ rest, (predict ⟨some demoModel, some demoPre, true⟩
          (Except.ok (JValue.obj [("amount", JValue.str "abc")]))).2.head? =
        some (ExtCall.transform
          (("Transaction Amount (INR)", JValue.num q) :: rest))) :=
  C4_amount_value_guard demoModel demoPre
    (JValue.obj [("amount", JValue.str "abc")]) (JValue.str "abc") rfl

/-- C5: every outcome of the /predict handler is one of exactly four
response forms: the null-resource 500, the type-coercion 400, the
success JSON, or a blanket-handler 500; no other control path exists. -/
theorem C5_control_paths (st : ServerState) (g : Except PyError JValue) :
    (predict st g).1 = resourcesErrorResponse ∨
    (predict st g).1 = invalidAmountResponse ∨
    (∃ p prob, (predict st g).1 = successResponse p prob) ∨
    (∃ e, (predict st g).1 = predictionErrorResponse e) := by
  rcases st with ⟨om, op, rl⟩
  cases rl with
  | false =>
    exact Or.inl (congrArg Prod.fst
      (predict_guard_fails om op false g (Or.inl rfl)))
  | true =>
    cases om with
    | none =>
      exact Or.inl (congrArg Prod.fst
        (predict_guard_fails none op true g (Or.inr (Or.inl rfl))))
    | some mdl =>
      cases op with
      | none =>
        exact Or.inl (congrArg Prod.fst
          (predict_guard_fails (some mdl) none true g (Or.inr (Or.inr rfl))))
      | some pre =>
        cases g with
        | error e => exact Or.inr (Or.inr (Or.inr ⟨e, rfl⟩))
        | ok data =>
          rcases buildRecord_shape data with hb | ⟨row, hb⟩ | ⟨e, hb⟩
          · exact Or.inr (Or.inl (congrArg Prod.fst
              (predict_buildRecord_badAmount mdl pre data hb)))
          · rcases runModel_fst_shape pre mdl row with ⟨p, prob, hr⟩ | ⟨e, hr⟩
            · refine Or.inr (Or.inr (Or.inl ⟨p, prob, ?_⟩))
              rw [predict_fst_record mdl pre data row hb, hr]
            · refine Or.inr (Or.inr (Or.inr ⟨e, ?_⟩))
              rw [predict_fst_record mdl pre data row hb, hr]
          · exact Or.inr (Or.inr (Or.inr ⟨e, congrArg Prod.fst
              (predict_buildRecord_error mdl pre data e hb)⟩))

/-- C6: after load_resources runs from the startup state,
RESOURCES_LOADED is true exactly when both joblib loads completed
without exception; a true flag guarantees model and preprocessor are
both non-None; and no request handler changes the flag afterwards. -/
theorem C6_resources_loaded_flag (lp : Except PyError Preprocessor)
    (lm : Except PyError Model) (g : Except PyError JValue) :
    ((load_resources lp lm initialState).RESOURCES_LOADED = true ↔
      (∃ pre, lp = Except.ok pre) ∧ (∃ mdl, lm = Except.ok mdl)) ∧
    ((load_resources lp lm initialState).RESOURCES_LOADED = false ∨
      ((load_resources lp lm initialState).model.isSome = true ∧
       (load_resources lp lm initialState).preprocessor.isSome = true)) ∧
    (∀ st : ServerState,
      (predict_handler st g).2.RESOURCES_LOADED = st.RESOURCES_LOADED ∧
      (home st).2.RESOURCES_LOADED = st.RESOURCES_LOADED) := by
  refine ⟨?_, ?_, ?_⟩
  · cases lp with
    | error e => simp [load_resources, initialState]
    | ok pre =>
      cases lm with
      | error e => simp [load_resources, initialState]
      | ok mdl => simp [load_resources, initialState]
  · cases lp with
    | error e => simp [load_resources, initialState]
    | ok pre =>
      cases lm with
      | error e => simp [load_resources, initialState]
      | ok mdl => simp [load_resources, initialState]
  · intro st
    refine ⟨rfl, ?_⟩
    cases h : st.RESOURCES_LOADED <;> simp [home, h]

/-- C7: only the amount field is type-coerced; for every request that
passes both guards the five categorical values from data["state"],
data["card_type"], data["bank"], data["category"], data["location"] are
placed into the record exactly as received, unchanged. -/
theorem C7_categoricals_unchanged (mdl : Model) (pre : Preprocessor)
    (data rawAmount s c b k l : JValue) (q : ℚ)
    (ham : data.getKey "amount" = Except.ok rawAmount)
    (hq : pyFloat rawAmount = Except.ok q)
    (hs : data.getKey "state" = Except.ok s)
    (hc : data.getKey "card_type" = Except.ok c)
    (hb : data.getKey "bank" = Except.ok b)
    (hk : data.getKey "category" = Except.ok k)
    (hl : data.getKey "location" = Except.ok l) :
    ∃ row, (predict ⟨some mdl, some pre, true⟩ (Except.ok data)).2.head? =
        some (ExtCall.transform row) ∧
      row.map Prod.snd = [JValue.num q, s, c, b, k, l] := by
  refine ⟨input_data_row q s c b k l, ?_, rfl⟩
  rw [predict_snd_record mdl pre data (input_data_row q s c b k l)
    (buildRecord_all_ok data rawAmount s c b k l q ham hq hs hc hb hk hl)]
  rw [runModel_trace_head]

/-- Witness for C7 at a concrete request. -/
theorem C7_categoricals_unchanged_witness :
    ∃ row, (predict ⟨some demoModel, some demoPre, true⟩
        (Except.ok demoData)).2.head? = some (ExtCall.transform row) ∧
      row.map Prod.snd =
        [JValue.num 2500, JValue.str "Telangana", JValue.str "Rupay",
         JValue.str "ICICI Bank", JValue.str "Transportation",
         JValue.str "Bangalore"] :=
  C7_categoricals_unchanged demoModel demoPre demoData
    (JValue.num 2500) (JValue.str "Telangana") (JValue.str "Rupay")
    (JValue.str "ICICI Bank") (JValue.str "Transportation")
    (JValue.str "Bangalore") 2500
    rfl rfl rfl rfl rfl rfl rfl

/-- C10: no execution of the /predict handler or the / home handler
modifies the global server state; model, preprocessor and
RESOURCES_LOADED after any request equal their values before it. -/
theorem C10_handlers_pure (st : ServerState) (g : Except PyError JValue) :
    (predict_handler st g).2 = st ∧ (home st).2 = st := by
  refine ⟨rfl, ?_⟩
  cases h : st.RESOURCES_LOADED <;> simp [home, h]

/-- C8 counterexample: a request body lacking the key state (and four
other categorical keys) whose amount is the non-numeric string "abc"
receives the HTTP 400 invalid-amount response, not a 500, refuting the
claim that lacking any of the six keys always yields HTTP 500. -/
theorem C8_missing_key_counterexample :
    List.lookup "state" [("amount", JValue.str "abc")] = none ∧
    (predict ⟨some demoModel, some demoPre, true⟩
        (Except.ok (JValue.obj [("amount", JValue.str "abc")]))).1 =
      invalidAmountResponse ∧
    invalidAmountResponse.status = 400 :=
  ⟨rfl, rfl, rfl⟩

/-- C8 (amended): with resources loaded, a request object lacking
the key "amount" gets the blanket 500 KeyError response; a request whose amount
converts but which lacks any of the five categorical keys gets a
blanket 500 KeyError response; and a 400 status arises only when
`float(data["amount"])` raises ValueError, even if other keys are also
missing. -/
theorem C8_missing_keys (mdl : Model) (pre : Preprocessor)
    (kvs : List (String × JValue)) :
    (List.lookup "amount" kvs = none →
      (predict ⟨some mdl, some pre, true⟩ (Except.ok (JValue.obj kvs))).1 =
        predictionErrorResponse (PyError.keyError "amount")) ∧
    (∀ (raw : JValue) (q : ℚ), List.lookup "amount" kvs = some raw →
      pyFloat raw = Except.ok q →
      (List.lookup "state" kvs = none ∨ List.lookup "card_type" kvs = none ∨
       List.lookup "bank" kvs = none ∨ List.lookup "category" kvs = none ∨
       List.lookup "location" kvs = none) →
      ∃ key, (predict ⟨some mdl, some pre, true⟩
          (Except.ok (JValue.obj kvs))).1 =
        predictionErrorResponse (PyError.keyError key)) ∧
    ((predict ⟨some mdl, some pre, true⟩ (Except.ok (JValue.obj kvs))).1.status
        = 400 →
      ∃ raw, List.lookup "amount" kvs = some raw ∧
        pyFloat raw = Except.error PyError.valueError) := by
  refine ⟨?_, ?_, ?_⟩
  · intro h
    have hbe : buildRecord (JValue.obj kvs) =
        Except.error (PyError.keyError "amount") := by
      simp only [buildRecord, getKey_obj, h]
    rw [predict_buildRecord_error mdl pre (JValue.obj kvs)
      (PyError.keyError "amount") hbe]
  · intro raw q hr hq hmiss
    have ham : (JValue.obj kvs).getKey "amount" = Except.ok raw := by
      simp only [getKey_obj, hr]
    cases hst : List.lookup "state" kvs with
    | none =>
      have hbe : buildRecord (JValue.obj kvs) =
          Except.error (PyError.keyError "state") := by
        simp only [buildRecord, ham, hq, getKey_obj, hst]
      exact ⟨"state", congrArg Prod.fst
        (predict_buildRecord_error mdl pre (JValue.obj kvs) _ hbe)⟩
    | some s =>
      cases hct : List.lookup "card_type" kvs with
      | none =>
        have hbe : buildRecord (JValue.obj kvs) =
            Except.error (PyError.keyError "card_type") := by
          simp only [buildRecord, ham, hq, getKey_obj, hst, hct]
        exact ⟨"card_type", congrArg Prod.fst
          (predict_buildRecord_error mdl pre (JValue.obj kvs) _ hbe)⟩
      | some c =>
        cases hbk : List.lookup "bank" kvs with
        | none =>
          have hbe : buildRecord (JValue.obj kvs) =
              Except.error (PyError.keyError "bank") := by
            simp only [buildRecord, ham, hq, getKey_obj, hst, hct, hbk]
          exact ⟨"bank", congrArg Prod.fst
            (predict_buildRecord_error mdl pre (JValue.obj kvs) _ hbe)⟩
        | some b =>
          cases hcg : List.lookup "category" kvs with
          | none =>
            have hbe : buildRecord (JValue.obj kvs) =
                Except.error (PyError.keyError "category") := by
              simp only [buildRecord, ham, hq, getKey_obj, hst, hct, hbk, hcg]
            exact ⟨"category", congrArg Prod.fst
              (predict_buildRecord_error mdl pre (JValue.obj kvs) _ hbe)⟩
          | some k =>
            cases hlc : List.lookup "location" kvs with
            | none =>
              have hbe : buildRecord (JValue.obj kvs) =
                  Except.error (PyError.keyError "location") := by
                simp only [buildRecord, ham, hq, getKey_obj, hst, hct, hbk,
                  hcg, hlc]
              exact ⟨"location", congrArg Prod.fst
                (predict_buildRecord_error mdl pre (JValue.obj kvs) _ hbe)⟩
            | some l =>
              exfalso
              rcases hmiss with h | h | h | h | h
              · rw [hst] at h; cases h
              · rw [hct] at h; cases h
              · rw [hbk] at h; cases h
              · rw [hcg] at h; cases h
              · rw [hlc] at h; cases h
  · intro h400
    rcases buildRecord_shape (JValue.obj kvs) with hb | ⟨row, hb⟩ | ⟨e, hb⟩
    · rcases buildRecord_badAmount_elim (JValue.obj kvs) hb with ⟨raw, hraw, hval⟩
      exact ⟨raw, getKey_obj_ok kvs "amount" raw hraw, hval⟩
    · exfalso
      rw [predict_fst_record mdl pre (JValue.obj kvs) row hb] at h400
      rcases runModel_fst_shape pre mdl row with ⟨p, prob, hr⟩ | ⟨e, hr⟩
      · rw [hr] at h400
        simp [successResponse] at h400
      · rw [hr] at h400
        simp [predictionErrorResponse] at h400
    · exfalso
      rw [congrArg Prod.fst
        (predict_buildRecord_error mdl pre (JValue.obj kvs) e hb)] at h400
      simp [predictionErrorResponse] at h400

/-- Witness for C8 (amended) at the empty request object. -/
theorem C8_missing_keys_witness :
    (predict ⟨some demoModel, some demoPre, true⟩
        (Except.ok (JValue.obj []))).1 =
      predictionErrorResponse (PyError.keyError "amount") :=
  (C8_missing_keys demoModel demoPre []).1 rfl

end App
